import Mathlib

/-!
Verification development for the Adaptive Risk & Stress-Testing Engine:
a shallow embedding of `src/risk/stress_testing.py`, `src/risk/profit_calibration.py`
and `src/safety/circuit_breakers.py` into Lean, with theorems settling the
spec's testable properties against the code.

Conventions of the embedding:
* Python floats are modelled as rationals (`ℚ`); the code under scrutiny does
  only field arithmetic, comparisons, `max`/`min`, percentile interpolation and
  counting, all of which are exact over `ℚ`.
* A Python function that can raise is modelled as `Except PyErr _`; an
  exception type is one `PyErr` constructor.
* `time.time()` is modelled by an explicit `now : ℚ` argument threaded to the
  call.
* Numpy reductions (`np.mean`, `np.min`, `np.percentile`) are modelled by
  `npMean`, `npMin`, `percentile5` below; `np.percentile(values, 5)` uses
  numpy's default linear interpolation on the sorted data.
-/

/-- Python exception classes appearing in (or relevant to) the embedded code.
`valueError` models `ValueError` (raised e.g. by `np.min` on an empty array),
`keyError` models `KeyError` (missing dict key), `zeroDivisionError` models
`ZeroDivisionError`. `insufficientDataError` models the `InsufficientDataError`
class named by the specification; no class of that name exists anywhere in the
source repository. `other` carries the message of any other exception. -/
inductive PyErr where
  | valueError
  | keyError
  | zeroDivisionError
  | insufficientDataError
  | other (msg : String)
deriving DecidableEq, Repr

/-- Rendering of an exception as `str(e)`, used by the `except` branch of
`_run_single_scenario` when it builds the failure recommendation string. -/
def PyErr.message : PyErr → String
  | .valueError => "ValueError"
  | .keyError => "KeyError"
  | .zeroDivisionError => "ZeroDivisionError"
  | .insufficientDataError => "InsufficientDataError"
  | .other msg => msg

/-- Insertion of one element into a sorted list (ascending). -/
def insertSorted (x : ℚ) : List ℚ → List ℚ
  | [] => [x]
  | y :: ys => if x ≤ y then x :: y :: ys else y :: insertSorted x ys

/-- Ascending sort of the trial values, as numpy performs internally for
`np.percentile`. -/
def sortValues (l : List ℚ) : List ℚ := l.foldr insertSorted []

/-- Model of `np.mean` (sum divided by length; on the empty list the quotient
is `0/0 = 0` in `ℚ` — the embedded code only applies it to non-empty lists or
behind a non-emptiness guard). -/
def npMean (l : List ℚ) : ℚ := l.sum / l.length

/-- Model of `np.min` on a non-empty array, given as head plus tail. -/
def npMin (v : ℚ) (vs : List ℚ) : ℚ := vs.foldl min v

/-- Model of `np.percentile(values, 5)` with numpy's default linear
interpolation: on the ascending sort `s` of the values, the result is
`s[i] + frac * (s[i+1] - s[i])` where `i = ⌊pos⌋`, `frac = pos - i` and
`pos = (n-1) * 5 / 100`. For a non-empty input the indices are in range, so
the `getD` fallbacks are never exercised. -/
def percentile5 (values : List ℚ) : ℚ :=
  let s := sortValues values
  let n := s.length
  let pos : ℚ := ((n : ℚ) - 1) * 5 / 100
  let i : ℕ := ⌊pos⌋.toNat
  let frac : ℚ := pos - (i : ℚ)
  s.getD i 0 + frac * (s.getD (i + 1) (s.getD i 0) - s.getD i 0)

/-- `RiskMetrics`: the five scalar outputs of
`StressTesting._calculate_risk_metrics` (stress_testing.py lines 444-450). -/
structure RiskMetrics where
  portfolio_impact : ℚ
  max_drawdown : ℚ
  var_95 : ℚ
  expected_shortfall : ℚ
  survival_probability : ℚ
deriving DecidableEq, Repr

/-- Core reduction of `StressTesting._calculate_risk_metrics`
(stress_testing.py lines 425-450), applied to the list of trial values after
the key-dispatch of lines 408-423.  On an empty trial set the Python code
raises `ValueError` at `np.min(values)` (`np.mean` of an empty array merely
yields `nan` with a warning; the subsequent `np.min` call raises), modelled
here as the `Except.error .valueError` branch.  For non-empty values:
portfolio impact `= 1 - mean`, max drawdown `= 1 - min`,
VaR95 `= 1 - percentile(values, 5)`, expected shortfall
`= 1 - mean (values ≤ percentile threshold)` guarded by the tail being
non-empty (else `0`), survival probability `= mean (values ≥ 0.5)`, i.e. the
fraction of trials with value at least `1/2`.  No output is clamped. -/
def riskMetricsOfValues : List ℚ → Except PyErr RiskMetrics
  | [] => .error .valueError
  | v :: vs =>
    let values := v :: vs
    let var_threshold := percentile5 values
    let tail_losses := values.filter (fun x => decide (x ≤ var_threshold))
    .ok
      { portfolio_impact := 1 - npMean values
        max_drawdown := 1 - npMin v vs
        var_95 := 1 - percentile5 values
        expected_shortfall := if tail_losses.length > 0 then 1 - npMean tail_losses else 0
        survival_probability :=
          ((values.countP (fun x => decide (x ≥ 1/2)) : ℚ)) / (values.length : ℚ) }

/-- `ScenarioType` enum of stress_testing.py lines 14-20. -/
inductive ScenarioType where
  | flash_crash
  | gas_spike
  | exchange_outage
  | liquidity_crisis
  | regulatory_shock
  | network_congestion
deriving DecidableEq, Repr

/-- The `.value` string of a `ScenarioType` member. -/
def ScenarioType.value : ScenarioType → String
  | .flash_crash => "flash_crash"
  | .gas_spike => "gas_spike"
  | .exchange_outage => "exchange_outage"
  | .liquidity_crisis => "liquidity_crisis"
  | .regulatory_shock => "regulatory_shock"
  | .network_congestion => "network_congestion"

/-- `StressScenario` dataclass (stress_testing.py lines 22-28).  The
scenario-specific `parameters` bag is consumed only inside the concrete
`_simulate_*` coroutines, which this embedding abstracts into a `sim`
argument (they are Monte Carlo functions of numpy's global RNG); it is
therefore omitted from the record. -/
structure StressScenario where
  name : String
  scenario_type : ScenarioType
  probability : ℚ
  severity : String
deriving DecidableEq, Repr

/-- `StressTestResult` dataclass (stress_testing.py lines 30-39). -/
structure StressTestResult where
  scenario : StressScenario
  portfolio_impact : ℚ
  max_drawdown : ℚ
  var_95 : ℚ
  expected_shortfall : ℚ
  survival_probability : ℚ
  recommendations : List String
  executed_at : ℚ
deriving DecidableEq, Repr

/-- The five catalog entries built by `StressTesting._initialize_scenarios`
(stress_testing.py lines 47-110), restricted to the fields carried by
`StressScenario` above. -/
def initial_scenarios : List StressScenario :=
  [ { name := "2020-style Flash Crash", scenario_type := .flash_crash,
      probability := 5/100, severity := "extreme" },
    { name := "Ethereum Gas Crisis", scenario_type := .gas_spike,
      probability := 15/100, severity := "high" },
    { name := "Major Exchange Outage", scenario_type := .exchange_outage,
      probability := 8/100, severity := "medium" },
    { name := "DeFi Liquidity Crisis", scenario_type := .liquidity_crisis,
      probability := 12/100, severity := "high" },
    { name := "Regulatory Crackdown", scenario_type := .regulatory_shock,
      probability := 3/100, severity := "extreme" } ]

/-- The portfolio snapshot fields the stress-test paths read (via
`portfolio.get('total_value', 0)` and friends); missing keys default as in the
source, so the fields are plain values with those defaults. -/
structure Portfolio where
  total_value : ℚ := 0
deriving DecidableEq, Repr

/-- Result dictionary of one `_simulate_*` coroutine, keyed by the single
list-valued entry that `_calculate_risk_metrics` dispatches on
(stress_testing.py lines 408-423); each constructor is one branch. -/
inductive ImpactAnalysis where
  | portfolio_values (vs : List ℚ)
  | profitability_impacts (vs : List ℚ)
  | execution_impacts (vs : List ℚ)
  | liquidity_impacts (vs : List ℚ)
  | regulatory_impacts (vs : List ℚ)
  | impacts (vs : List ℚ)
deriving DecidableEq, Repr

/-- Normalisation of an impact analysis into the trial-value list, exactly the
key dispatch of `_calculate_risk_metrics` lines 408-423 (base value 1,
divisors 100000 and 1000000 as in the source).  A dict carrying none of the
keys would default to `[1]` in the source; that case has no constructor here
because every simulator returns one of the six keys. -/
def extract_values : ImpactAnalysis → List ℚ
  | .portfolio_values vs => vs
  | .profitability_impacts vs => vs.map (fun impact => 1 - impact)
  | .execution_impacts vs => vs.map (fun impact => 1 - impact / 100000)
  | .liquidity_impacts vs => vs.map (fun impact => 1 - impact / 100000)
  | .regulatory_impacts vs => vs.map (fun impact => 1 - impact / 1000000)
  | .impacts vs => vs

/-- `StressTesting._calculate_risk_metrics` (stress_testing.py lines 406-450):
key dispatch followed by the scalar reduction. -/
def calculate_risk_metrics (impact_analysis : ImpactAnalysis) : Except PyErr RiskMetrics :=
  riskMetricsOfValues (extract_values impact_analysis)

/-- `StressTesting._generate_scenario_recommendations` (stress_testing.py
lines 452-489).  `int(portfolio_impact * 100)` truncates; in the branch where
it is evaluated `portfolio_impact > 0.5`, so truncation equals the floor. -/
def generate_scenario_recommendations (scenario : StressScenario)
    (risk_metrics : RiskMetrics) : List String :=
  let portfolio_impact := risk_metrics.portfolio_impact
  let max_drawdown := risk_metrics.max_drawdown
  let recommendations : List String :=
    (if portfolio_impact > 1/2 then
      ["IMMEDIATE: Develop contingency plan for " ++ scenario.name,
       "URGENT: Reduce exposure by at least " ++ toString ⌊portfolio_impact * 100⌋ ++ "%"]
     else if portfolio_impact > 1/4 then
      ["HEDGE: Implement hedging strategy for " ++ scenario.scenario_type.value,
       "MONITOR: Increase monitoring frequency during stress conditions"]
     else [])
    ++ (if max_drawdown > 7/10 then
        ["CAPITAL PRESERVATION: Activate emergency capital protection measures"] else [])
    ++ (if risk_metrics.survival_probability < 1/2 then
        ["SURVIVAL: Ensure sufficient liquidity for survival in extreme conditions"] else [])
    ++ (match scenario.scenario_type with
        | .flash_crash =>
          ["Implement circuit breakers and position limits",
           "Diversify across non-correlated assets"]
        | .gas_spike =>
          ["Use Layer 2 solutions for high-frequency trading",
           "Implement gas price monitoring and alerts"]
        | .exchange_outage =>
          ["Maintain accounts on multiple exchanges",
           "Develop manual override procedures"]
        | _ => [])
  if recommendations.length = 0 then
    ["Current risk exposure appears manageable for this scenario"]
  else recommendations

/-- `StressTesting._run_single_scenario` (stress_testing.py lines 142-186).
The scenario-type dispatch to the `_simulate_*` coroutines is abstracted as
the `sim` argument (those bodies are Monte Carlo draws from numpy's RNG); a
raised exception in the simulation — or in the subsequent metric reduction —
is the `Except.error` case, caught by the `except` clause, which returns the
all-zero failure result with the `"Stress test failed: ..."` recommendation. -/
def run_single_scenario (sim : StressScenario → Portfolio → Except PyErr ImpactAnalysis)
    (scenario : StressScenario) (portfolio : Portfolio) (now : ℚ) : StressTestResult :=
  match (sim scenario portfolio).bind calculate_risk_metrics with
  | .ok risk_metrics =>
    { scenario := scenario
      portfolio_impact := risk_metrics.portfolio_impact
      max_drawdown := risk_metrics.max_drawdown
      var_95 := risk_metrics.var_95
      expected_shortfall := risk_metrics.expected_shortfall
      survival_probability := risk_metrics.survival_probability
      recommendations := generate_scenario_recommendations scenario risk_metrics
      executed_at := now }
  | .error e =>
    { scenario := scenario
      portfolio_impact := 0
      max_drawdown := 0
      var_95 := 0
      expected_shortfall := 0
      survival_probability := 0
      recommendations := ["Stress test failed: " ++ e.message]
      executed_at := now }

/-- Severity weighting dict of `_calculate_overall_risk_score`
(stress_testing.py lines 519-524), with its `.get(..., 1)` default. -/
def severity_weight (severity : String) : ℚ :=
  if severity = "low" then 1
  else if severity = "medium" then 2
  else if severity = "high" then 3
  else if severity = "extreme" then 5
  else 1

/-- `StressTesting._calculate_overall_risk_score` (stress_testing.py lines
506-532): probability- and severity-weighted sum of per-scenario impacts,
divided by the maximum attainable weighted score and rescaled to 0-100.
`scenario_results` is the name-keyed dict of per-scenario results;
`risk_score_step` is the body of its accumulation loop (`total_score` and
`max_score`). -/
def risk_score_step (acc : ℚ × ℚ) (r : String × StressTestResult) : ℚ × ℚ :=
  let scenario := r.2.scenario
  let probability_weight := scenario.probability * 100
  let sev_weight := severity_weight scenario.severity
  let impact_weight := r.2.portfolio_impact * 100
  (acc.1 + probability_weight * sev_weight * impact_weight,
   acc.2 + probability_weight * sev_weight * 100)

def calculate_overall_risk_score (scenario_results : List (String × StressTestResult)) : ℚ :=
  if scenario_results.length = 0 then 0
  else
    let acc := scenario_results.foldl risk_score_step (0, 0)
    if acc.2 > 0 then acc.1 / acc.2 * 100 else 0


/-- `OverallMetrics`: the dict built by `_calculate_overall_metrics`
(stress_testing.py lines 497-504). -/
structure OverallMetrics where
  worst_case_impact : ℚ
  average_impact : ℚ
  max_drawdown_across_scenarios : ℚ
  highest_var_95 : ℚ
  scenarios_above_50pct_impact : ℕ
  overall_risk_score : ℚ
deriving DecidableEq, Repr

/-- Maximum of a rational list with Python's `max(xs) if xs else 0` guard. -/
def listMaxD (l : List ℚ) : ℚ :=
  match l with
  | [] => 0
  | v :: vs => vs.foldl max v

/-- `StressTesting._calculate_overall_metrics` (stress_testing.py lines
491-504). -/
def calculate_overall_metrics (scenario_results : List (String × StressTestResult)) :
    OverallMetrics :=
  let portfolio_impacts := scenario_results.map (fun r => r.2.portfolio_impact)
  let max_drawdowns := scenario_results.map (fun r => r.2.max_drawdown)
  let var_95s := scenario_results.map (fun r => r.2.var_95)
  { worst_case_impact := listMaxD portfolio_impacts
    average_impact := if portfolio_impacts.length = 0 then 0 else npMean portfolio_impacts
    max_drawdown_across_scenarios := listMaxD max_drawdowns
    highest_var_95 := listMaxD var_95s
    scenarios_above_50pct_impact := portfolio_impacts.countP (fun impact => decide (impact > 1/2))
    overall_risk_score := calculate_overall_risk_score scenario_results }

/-- `StressTesting._generate_overall_recommendations` (stress_testing.py lines
534-567).  The corrupted emoji glyphs prefixing four of the source's literals
are omitted; the textual content is kept verbatim. -/
def generate_overall_recommendations (scenario_results : List (String × StressTestResult))
    (overall_metrics : OverallMetrics) : List String :=
  let risk_score := overall_metrics.overall_risk_score
  let worst_case_impact := overall_metrics.worst_case_impact
  (if risk_score > 70 then
    ["CRITICAL: Overall risk level extremely high - immediate action required",
     "Reduce total exposure by at least 50%",
     "Implement all scenario-specific recommendations"]
   else if risk_score > 50 then
    ["HIGH: Significant risk exposure detected",
     "Review and implement high-priority scenario recommendations",
     "Consider reducing leverage and position sizes"]
   else if risk_score > 30 then
    ["MODERATE: Manageable risk level with proper controls",
     "Implement selective hedging strategies",
     "Maintain current monitoring frequency"]
   else
    ["LOW: Risk exposure within acceptable limits",
     "Continue current risk management practices",
     "Regularly review stress test results"])
  ++ (if worst_case_impact > 8/10 then
      ["SURVIVAL: Ensure business continuity plan for extreme scenarios"] else [])
  ++ (if overall_metrics.scenarios_above_50pct_impact > 2 then
      ["DIVERSIFY: Reduce concentration in vulnerable strategies"] else [])

/-- `StressReport`: the dict returned by
`StressTesting.run_comprehensive_stress_tests` (stress_testing.py lines
132-140), one field per key of the literal. -/
structure StressReport where
  stress_test_id : String
  execution_time : ℚ
  portfolio_value : ℚ
  scenario_results : List (String × StressTestResult)
  overall_metrics : OverallMetrics
  recommendations : List String
  timestamp : ℚ
deriving DecidableEq, Repr

/-- The exact key set of the dict literal returned by
`run_comprehensive_stress_tests` (stress_testing.py lines 132-140).  There is
no `partial` key: the report structure has no way to mark itself partial. -/
def stress_report_keys : List String :=
  ["stress_test_id", "execution_time", "portfolio_value", "scenario_results",
   "overall_metrics", "recommendations", "timestamp"]

/-- `StressTesting.run_comprehensive_stress_tests` (stress_testing.py lines
112-140).  `self.scenarios` is the `scenarios` argument (initialised to
`initial_scenarios` in `__init__`); `sim` abstracts the per-type `_simulate_*`
dispatch of `_run_single_scenario`; `t0` is the `start_time` reading of
`time.time()` and `t1` the reading at aggregation/return.  The function is
total: no exception propagates out of a scenario run. -/
def run_comprehensive_stress_tests
    (sim : StressScenario → Portfolio → Except PyErr ImpactAnalysis)
    (scenarios : List StressScenario) (portfolio : Portfolio) (t0 t1 : ℚ) : StressReport :=
  let results := scenarios.map (fun scenario =>
    (scenario.name, run_single_scenario sim scenario portfolio t1))
  let overall_metrics := calculate_overall_metrics results
  { stress_test_id := "stress_test_" ++ toString ⌊t1⌋
    execution_time := t1 - t0
    portfolio_value := portfolio.total_value
    scenario_results := results
    overall_metrics := overall_metrics
    recommendations := generate_overall_recommendations results overall_metrics
    timestamp := t1 }

/-- `CircuitBreakerConfig` dataclass (circuit_breakers.py lines 12-19). -/
structure CircuitBreakerConfig where
  max_daily_loss : ℚ := 5/100
  max_single_loss : ℚ := 2/100
  max_consecutive_losses : ℕ := 5
  max_gas_price : ℚ := 200000000000
  min_profit_threshold : ℚ := 1/1000
  cooldown_period : ℚ := 300
deriving DecidableEq, Repr

/-- The default configuration (`CircuitBreakerConfig()`). -/
def defaultConfig : CircuitBreakerConfig := {}

/-- The four breaker names keyed in `self.breakers`
(circuit_breakers.py lines 24-29). -/
inductive BreakerName where
  | daily_loss
  | consecutive_losses
  | gas_price
  | profitability
deriving DecidableEq, Repr

/-- One entry of the `self.breakers` dict.  In the source each entry is itself
a dict, and the key sets differ: `daily_loss`, `gas_price` and `profitability`
start with `{'triggered': False, 'last_trigger': 0}` while
`consecutive_losses` starts with `{'triggered': False, 'count': 0}` — it has
NO `last_trigger` key until its breaker first triggers.  `last_trigger` is
therefore an `Option`; reading it when absent is a `KeyError`.  `count` is
present (0) from initialisation on for `consecutive_losses` and is never read
for the other three. -/
structure BreakerRec where
  triggered : Bool
  last_trigger : Option ℚ
  count : ℕ
deriving DecidableEq, Repr

/-- One trade-proposal record.  The gate reads these keys with
`trade.get(key, default)`, so each field carries the source's default for a
missing key. -/
structure Trade where
  id : ℕ := 0
  expected_profit : ℚ := 0
  expected_profit_percentage : ℚ := 0
  gas_price : ℚ := 0
  actual_profit : ℚ := 0
  gas_used : ℚ := 0
  status : String := "executed"
deriving DecidableEq, Repr

/-- One entry of `self.trading_history`
(`_update_trading_history`, circuit_breakers.py lines 169-182). -/
structure TradeRec where
  timestamp : ℚ
  trade_id : ℕ
  expected_profit : ℚ
  actual_profit : ℚ
  gas_used : ℚ
  status : String
deriving DecidableEq, Repr

/-- The mutable state of a `PerformanceCircuitBreakers` instance
(circuit_breakers.py lines 22-32). -/
structure CBState where
  daily_loss : BreakerRec
  consecutive_losses : BreakerRec
  gas_price : BreakerRec
  profitability : BreakerRec
  trading_history : List TradeRec
  daily_pnl : ℚ
  last_reset_time : ℚ
deriving DecidableEq, Repr

/-- `PerformanceCircuitBreakers.__init__` (circuit_breakers.py lines 22-32);
`now` is the `time.time()` stored in `last_reset_time`. -/
def initState (now : ℚ) : CBState :=
  { daily_loss := { triggered := false, last_trigger := some 0, count := 0 }
    consecutive_losses := { triggered := false, last_trigger := none, count := 0 }
    gas_price := { triggered := false, last_trigger := some 0, count := 0 }
    profitability := { triggered := false, last_trigger := some 0, count := 0 }
    trading_history := []
    daily_pnl := 0
    last_reset_time := now }

/-- Lookup `self.breakers[name]`. -/
def CBState.breaker (s : CBState) : BreakerName → BreakerRec
  | .daily_loss => s.daily_loss
  | .consecutive_losses => s.consecutive_losses
  | .gas_price => s.gas_price
  | .profitability => s.profitability

/-- Update `self.breakers[name]` with `f`. -/
def CBState.updateBreaker (s : CBState) (name : BreakerName) (f : BreakerRec → BreakerRec) :
    CBState :=
  match name with
  | .daily_loss => { s with daily_loss := f s.daily_loss }
  | .consecutive_losses => { s with consecutive_losses := f s.consecutive_losses }
  | .gas_price => { s with gas_price := f s.gas_price }
  | .profitability => { s with profitability := f s.profitability }

/-- The messages the four checks produce (the `message` / `warning` f-strings
of circuit_breakers.py, abstracted to constructors carrying the interpolated
quantity). -/
inductive BreakerMessage where
  | dailyLossExceeded (projected_pnl : ℚ)
  | consecutiveLosses (count : ℕ)
  | gasTooHigh (gas_price : ℚ)
  | lowProfitability (expected_profit_percentage : ℚ)
deriving DecidableEq, Repr

/-- The dict a single `_check_*_breaker` coroutine returns: `triggered` and
`breaker` are always present; `message` is present exactly when triggered;
`warning` is present only in the profitability warning branch. -/
structure CheckResult where
  triggered : Bool
  breaker : BreakerName
  message : Option BreakerMessage := none
  warning : Option BreakerMessage := none
deriving DecidableEq, Repr

/-- `PerformanceCircuitBreakers._reset_daily_if_needed`
(circuit_breakers.py lines 162-167). -/
def reset_daily_if_needed (now : ℚ) (s : CBState) : CBState :=
  if now - s.last_reset_time ≥ 86400 then
    { s with daily_pnl := 0, last_reset_time := now }
  else s

/-- `PerformanceCircuitBreakers._check_daily_loss_breaker`
(circuit_breakers.py lines 71-91). -/
def check_daily_loss_breaker (config : CircuitBreakerConfig) (now : ℚ) (s : CBState)
    (trade : Trade) : CBState × CheckResult :=
  let s := reset_daily_if_needed now s
  let projected_pnl := s.daily_pnl + trade.expected_profit
  let daily_loss_limit := -|config.max_daily_loss|
  if projected_pnl < daily_loss_limit then
    (s.updateBreaker .daily_loss (fun b => { b with triggered := true, last_trigger := some now }),
     { triggered := true, breaker := .daily_loss,
       message := some (.dailyLossExceeded projected_pnl) })
  else (s, { triggered := false, breaker := .daily_loss })

/-- `PerformanceCircuitBreakers._check_consecutive_loss_breaker`
(circuit_breakers.py lines 93-114). -/
def check_consecutive_loss_breaker (config : CircuitBreakerConfig) (now : ℚ) (s : CBState)
    (trade : Trade) : CBState × CheckResult :=
  let count := if trade.expected_profit < 0 then s.consecutive_losses.count + 1 else 0
  let s := s.updateBreaker .consecutive_losses (fun b => { b with count := count })
  if count ≥ config.max_consecutive_losses then
    (s.updateBreaker .consecutive_losses
       (fun b => { b with triggered := true, last_trigger := some now }),
     { triggered := true, breaker := .consecutive_losses,
       message := some (.consecutiveLosses count) })
  else (s, { triggered := false, breaker := .consecutive_losses })

/-- `PerformanceCircuitBreakers._check_gas_price_breaker`
(circuit_breakers.py lines 116-132). -/
def check_gas_price_breaker (config : CircuitBreakerConfig) (now : ℚ) (s : CBState)
    (trade : Trade) : CBState × CheckResult :=
  if trade.gas_price > config.max_gas_price then
    (s.updateBreaker .gas_price (fun b => { b with triggered := true, last_trigger := some now }),
     { triggered := true, breaker := .gas_price,
       message := some (.gasTooHigh trade.gas_price) })
  else (s, { triggered := false, breaker := .gas_price })

/-- `PerformanceCircuitBreakers._check_profitability_breaker`
(circuit_breakers.py lines 134-160): below the threshold a warning message is
formed; only "significantly below" (less than half the threshold) actually
triggers, otherwise the message is reported via the `warning` key. -/
def check_profitability_breaker (config : CircuitBreakerConfig) (now : ℚ) (s : CBState)
    (trade : Trade) : CBState × CheckResult :=
  let epp := trade.expected_profit_percentage
  if epp < config.min_profit_threshold then
    if epp < config.min_profit_threshold * (1/2) then
      (s.updateBreaker .profitability
         (fun b => { b with triggered := true, last_trigger := some now }),
       { triggered := true, breaker := .profitability,
         message := some (.lowProfitability epp) })
    else
      (s, { triggered := false, breaker := .profitability,
            warning := some (.lowProfitability epp) })
  else (s, { triggered := false, breaker := .profitability })

/-- `PerformanceCircuitBreakers._update_trading_history`
(circuit_breakers.py lines 169-182): append the trade record, then drop the
oldest entry if the history exceeds 1000 entries. -/
def update_trading_history (now : ℚ) (s : CBState) (trade : Trade) : CBState :=
  let history := s.trading_history ++
    [{ timestamp := now, trade_id := trade.id, expected_profit := trade.expected_profit,
       actual_profit := trade.actual_profit, gas_used := trade.gas_used,
       status := trade.status }]
  { s with trading_history := if history.length > 1000 then history.tail else history }

/-- The per-trade verdict dict built by `monitor_trade_execution`
(circuit_breakers.py lines 40-45). -/
structure MonitorResult where
  trade_id : ℕ
  breakers_triggered : List BreakerName
  allowed_to_proceed : Bool
  warnings : List BreakerMessage
deriving DecidableEq, Repr

/-- The body of the result-aggregation loop of `monitor_trade_execution`
(circuit_breakers.py lines 57-64): a triggered check appends its breaker name,
forces `allowed_to_proceed := false` and appends its message to the warnings;
a check with a `warning` key appends that warning. -/
def aggregate_check (m : MonitorResult) (r : CheckResult) : MonitorResult :=
  let m :=
    if r.triggered then
      { m with breakers_triggered := m.breakers_triggered ++ [r.breaker]
               allowed_to_proceed := false
               warnings := m.warnings ++ r.message.toList }
    else m
  match r.warning with
  | some w => { m with warnings := m.warnings ++ [w] }
  | none => m

/-- `PerformanceCircuitBreakers.monitor_trade_execution`
(circuit_breakers.py lines 38-69).  The four checks are coroutines gathered
with `asyncio.gather`; none of them awaits internally, so they run to
completion sequentially in the listed order, threading the instance state.
The aggregation loop folds the four check results into the verdict, and the
trade is appended to the history before returning. -/
def monitor_trade_execution (config : CircuitBreakerConfig) (now : ℚ) (s : CBState)
    (trade : Trade) : CBState × MonitorResult :=
  let c1 := check_daily_loss_breaker config now s trade
  let c2 := check_consecutive_loss_breaker config now c1.1 trade
  let c3 := check_gas_price_breaker config now c2.1 trade
  let c4 := check_profitability_breaker config now c3.1 trade
  let monitoring_result := [c1.2, c2.2, c3.2, c4.2].foldl aggregate_check
    { trade_id := trade.id, breakers_triggered := [], allowed_to_proceed := true, warnings := [] }
  (update_trading_history now c4.1 trade, monitoring_result)

/-- `PerformanceCircuitBreakers.reset_breaker` (circuit_breakers.py lines
184-194).  Every `BreakerName` is a key of `self.breakers`, so the
`breaker_name in self.breakers` guard always passes; the read of
`['last_trigger']` raises `KeyError` when that key is absent (the
never-triggered `consecutive_losses` entry).  Within cooldown the call
returns `False` without touching the state; after cooldown it clears
`triggered` and, for `consecutive_losses`, zeroes the counter. -/
def reset_breaker (config : CircuitBreakerConfig) (now : ℚ) (breaker_name : BreakerName)
    (s : CBState) : Except PyErr (Bool × CBState) :=
  match (s.breaker breaker_name).last_trigger with
  | none => .error .keyError
  | some last_trigger =>
    if now - last_trigger ≥ config.cooldown_period then
      let s := s.updateBreaker breaker_name (fun b => { b with triggered := false })
      let s := if breaker_name = .consecutive_losses then
          s.updateBreaker breaker_name (fun b => { b with count := 0 })
        else s
      .ok (true, s)
    else .ok (false, s)

/-- Folding a list of evaluated trades (each with its `time.time()` reading)
through the gate, keeping only the evolving state. -/
def run_trades (config : CircuitBreakerConfig) (s : CBState) (evs : List (Trade × ℚ)) : CBState :=
  evs.foldl (fun s ev => (monitor_trade_execution config ev.2 s ev.1).1) s

/-- A candidate `Strategy` record as consumed by `ProfitCalibration`
(profit_calibration.py): required keys are plain fields, keys read through
`strategy.get(...)` are `Option`s resolved with the source's defaults, and the
`'correlation_with_<id>'` keys are gathered in `correlations`. -/
structure Strategy where
  id : String
  expected_annual_return : ℚ := 0
  volatility : ℚ := 0
  allocated_capital : ℚ := 0
  win_rate : Option ℚ := none
  avg_win_percent : Option ℚ := none
  avg_loss_percent : Option ℚ := none
  correlations : List (String × ℚ) := []
deriving DecidableEq, Repr

/-- `ProfitCalibration._build_covariance_matrix` (profit_calibration.py lines
47-62): diagonal entries are `volatility²`; off-diagonal entries multiply the
two volatilities by `strategies[i].get('correlation_with_' + strategies[j].id,
0.2)`. -/
def build_covariance_matrix (strategies : List Strategy) : List (List ℚ) :=
  strategies.enum.map (fun si =>
    strategies.enum.map (fun sj =>
      if si.1 = sj.1 then si.2.volatility ^ 2
      else
        let correlation :=
          ((si.2.correlations.lookup ("correlation_with_" ++ sj.2.id)).getD (2/10))
        si.2.volatility * sj.2.volatility * correlation))

/-- One entry of the `kelly_weights` dict
(`_calculate_kelly_weights`, profit_calibration.py lines 83-87). -/
structure KellyEntry where
  kelly_fraction : ℚ
  conservative_fraction : ℚ
  suggested_allocation : ℚ
deriving DecidableEq, Repr

/-- The per-strategy body of `ProfitCalibration._calculate_kelly_weights`
(profit_calibration.py lines 69-87): resolve the win rate and average
win/loss with their `.get` defaults (0.55, 0.15, 0.05), form
`b = avg_win / avg_loss` (a `ZeroDivisionError` when `avg_loss == 0`),
`kelly = (b·p − q)/b` when `b > 0` else `0`, halve it for the conservative
fraction, clamp both at `0` with `max`, and suggest
`conservative_fraction × total_capital` (the UNclamped conservative
fraction, as in the source). -/
def kelly_entry (total_capital : ℚ) (strategy : Strategy) : Except PyErr (String × KellyEntry) :=
  let win_rate := strategy.win_rate.getD (55/100)
  let avg_win := strategy.avg_win_percent.getD (15/100)
  let avg_loss := strategy.avg_loss_percent.getD (5/100)
  if avg_loss = 0 then .error .zeroDivisionError
  else
    let b := avg_win / avg_loss
    let p := win_rate
    let q := 1 - p
    let kelly_fraction := if b > 0 then (b * p - q) / b else 0
    let conservative_fraction := kelly_fraction * (1/2)
    .ok (strategy.id,
      { kelly_fraction := max 0 kelly_fraction
        conservative_fraction := max 0 conservative_fraction
        suggested_allocation := conservative_fraction * total_capital })

/-- `ProfitCalibration._calculate_kelly_weights` (profit_calibration.py lines
64-89): total capital is the sum of allocated capital, and the dict is built
strategy by strategy. -/
def calculate_kelly_weights (strategies : List Strategy) :
    Except PyErr (List (String × KellyEntry)) :=
  let total_capital := (strategies.map (fun s => s.allocated_capital)).sum
  strategies.mapM (kelly_entry total_capital)

/-- `ProfitCalibration._estimate_max_drawdown` (profit_calibration.py lines
91-96). -/
def estimate_max_drawdown (volatility expected_return : ℚ) : ℚ :=
  if expected_return > 0 then volatility ^ 2 / (4 * expected_return)
  else volatility * 2

/-- `ProfitCalibration._calculate_var` (profit_calibration.py lines 98-101);
`z_score` stands for `stats.norm.ppf(1 - confidence)`, an irrational constant
supplied as a parameter of the embedding. -/
def calculate_var (z_score volatility expected_return : ℚ) : ℚ :=
  expected_return + z_score * volatility

/-- The result of the `EfficientFrontier` max-Sharpe solve: the cleaned
weights plus the `portfolio_performance()` triple (expected return,
volatility, Sharpe ratio). -/
structure QPSolution where
  weights : List ℚ
  expected_return : ℚ
  volatility : ℚ
  sharpe_ratio : ℚ
deriving DecidableEq, Repr

/-- The dict `calibrate_risk_profit_profile` returns on success
(profit_calibration.py lines 36-45), one field per key of the literal. -/
structure CalibrationResult where
  optimal_weights : List ℚ
  kelly_weights : List (String × KellyEntry)
  expected_annual_return : ℚ
  expected_volatility : ℚ
  sharpe_ratio : ℚ
  max_drawdown_estimate : ℚ
  var_95 : ℚ
  calibration_timestamp : ℤ
deriving DecidableEq, Repr

/-- The exact key set of the success dict of `calibrate_risk_profit_profile`
(profit_calibration.py lines 36-45).  There is no `optimization_success`
key. -/
def calibration_result_keys : List String :=
  ["optimal_weights", "kelly_weights", "expected_annual_return", "expected_volatility",
   "sharpe_ratio", "max_drawdown_estimate", "var_95", "calibration_timestamp"]

/-- The two possible returns of `calibrate_risk_profit_profile`: the
`{'error': 'No strategies provided'}` dict for an empty input, or the full
result dict. -/
inductive CalibrationOutput where
  | error_dict (msg : String)
  | result (r : CalibrationResult)
deriving DecidableEq, Repr

/-- `ProfitCalibration.calibrate_risk_profit_profile` (profit_calibration.py
lines 16-45).  The `EfficientFrontier` construction, `max_sharpe` solve,
`clean_weights` and `portfolio_performance` calls are abstracted as the
`solve` argument acting on the expected returns and the covariance matrix;
a solver exception or non-convergence is its `Except.error` case.  The body
has NO try/except: a solver failure propagates to the caller, as does a
`ZeroDivisionError` from the Kelly computation.  `z_score` stands for
`stats.norm.ppf(0.05)` and `now` for `int(time.time())`. -/
def calibrate_risk_profit_profile
    (solve : List ℚ → List (List ℚ) → Except PyErr QPSolution)
    (z_score : ℚ) (now : ℤ) (strategies : List Strategy) :
    Except PyErr CalibrationOutput :=
  if strategies.length = 0 then .ok (.error_dict "No strategies provided")
  else do
    let expected_returns := strategies.map (fun s => s.expected_annual_return)
    let covariance_matrix := build_covariance_matrix strategies
    let qp ← solve expected_returns covariance_matrix
    let kelly_weights ← calculate_kelly_weights strategies
    .ok (.result
      { optimal_weights := qp.weights
        kelly_weights := kelly_weights
        expected_annual_return := qp.expected_return
        expected_volatility := qp.volatility
        sharpe_ratio := qp.sharpe_ratio
        max_drawdown_estimate := estimate_max_drawdown qp.volatility qp.expected_return
        var_95 := calculate_var z_score qp.volatility qp.expected_return
        calibration_timestamp := now })

/-- The warnings a single check result contributes to the verdict in the
aggregation loop: its `message` when triggered, then its `warning` when
present. -/
def check_warnings (r : CheckResult) : List BreakerMessage :=
  (if r.triggered then r.message.toList else []) ++ r.warning.toList

lemma foldl_aggregate_check (rs : List CheckResult) (m : MonitorResult) :
    rs.foldl aggregate_check m =
      { trade_id := m.trade_id
        breakers_triggered := m.breakers_triggered ++
          (rs.filter (fun r => r.triggered)).map (fun r => r.breaker)
        allowed_to_proceed := m.allowed_to_proceed && rs.all (fun r => !r.triggered)
        warnings := m.warnings ++ (rs.map check_warnings).flatten } := by
  induction rs generalizing m with
  | nil => simp
  | cons r rs ih =>
    rw [List.foldl_cons, ih]
    unfold aggregate_check check_warnings
    rcases hw : r.warning with _ | w <;> rcases ht : r.triggered with _ | _ <;>
      simp [ht, hw, List.filter_cons, List.append_assoc]

lemma updateBreaker_daily_pnl (s : CBState) (n : BreakerName) (f : BreakerRec → BreakerRec) :
    (s.updateBreaker n f).daily_pnl = s.daily_pnl := by
  cases n <;> rfl

lemma updateBreaker_history (s : CBState) (n : BreakerName) (f : BreakerRec → BreakerRec) :
    (s.updateBreaker n f).trading_history = s.trading_history := by
  cases n <;> rfl

lemma updateBreaker_consecutive_of_ne (s : CBState) (n : BreakerName) (f : BreakerRec → BreakerRec)
    (h : n ≠ .consecutive_losses) :
    (s.updateBreaker n f).consecutive_losses = s.consecutive_losses := by
  cases n <;> simp_all [CBState.updateBreaker]

lemma reset_daily_pnl0 (now : ℚ) (s : CBState) (h : s.daily_pnl = 0) :
    (reset_daily_if_needed now s).daily_pnl = 0 := by
  unfold reset_daily_if_needed
  split <;> simp [h]

lemma reset_daily_consecutive (now : ℚ) (s : CBState) :
    (reset_daily_if_needed now s).consecutive_losses = s.consecutive_losses := by
  unfold reset_daily_if_needed
  split <;> rfl

lemma check_daily_fst_pnl0 (config : CircuitBreakerConfig) (now : ℚ) (s : CBState) (trade : Trade)
    (h : s.daily_pnl = 0) :
    ((check_daily_loss_breaker config now s trade).1).daily_pnl = 0 := by
  unfold check_daily_loss_breaker
  dsimp only
  split <;> simp [updateBreaker_daily_pnl, reset_daily_pnl0 now s h]

lemma check_daily_fst_consecutive (config : CircuitBreakerConfig) (now : ℚ) (s : CBState)
    (trade : Trade) :
    ((check_daily_loss_breaker config now s trade).1).consecutive_losses =
      s.consecutive_losses := by
  unfold check_daily_loss_breaker
  dsimp only
  split <;>
    simp [updateBreaker_consecutive_of_ne _ _ _ (by decide : BreakerName.daily_loss ≠ .consecutive_losses),
      reset_daily_consecutive]

lemma check_consecutive_fst_pnl (config : CircuitBreakerConfig) (now : ℚ) (s : CBState)
    (trade : Trade) :
    ((check_consecutive_loss_breaker config now s trade).1).daily_pnl = s.daily_pnl := by
  unfold check_consecutive_loss_breaker
  dsimp only
  split_ifs <;> simp [updateBreaker_daily_pnl]

lemma check_gas_fst_pnl (config : CircuitBreakerConfig) (now : ℚ) (s : CBState) (trade : Trade) :
    ((check_gas_price_breaker config now s trade).1).daily_pnl = s.daily_pnl := by
  unfold check_gas_price_breaker
  split <;> simp [updateBreaker_daily_pnl]

lemma check_profit_fst_pnl (config : CircuitBreakerConfig) (now : ℚ) (s : CBState) (trade : Trade) :
    ((check_profitability_breaker config now s trade).1).daily_pnl = s.daily_pnl := by
  unfold check_profitability_breaker
  dsimp only
  split_ifs <;> simp [updateBreaker_daily_pnl]

lemma check_gas_fst_consecutive (config : CircuitBreakerConfig) (now : ℚ) (s : CBState)
    (trade : Trade) :
    ((check_gas_price_breaker config now s trade).1).consecutive_losses =
      s.consecutive_losses := by
  unfold check_gas_price_breaker
  split <;>
    simp [updateBreaker_consecutive_of_ne _ _ _ (by decide : BreakerName.gas_price ≠ .consecutive_losses)]

lemma check_profit_fst_consecutive (config : CircuitBreakerConfig) (now : ℚ) (s : CBState)
    (trade : Trade) :
    ((check_profitability_breaker config now s trade).1).consecutive_losses =
      s.consecutive_losses := by
  unfold check_profitability_breaker
  dsimp only
  split_ifs <;>
    simp [updateBreaker_consecutive_of_ne _ _ _ (by decide : BreakerName.profitability ≠ .consecutive_losses)]

lemma update_history_pnl (now : ℚ) (s : CBState) (trade : Trade) :
    (update_trading_history now s trade).daily_pnl = s.daily_pnl := rfl

lemma update_history_consecutive (now : ℚ) (s : CBState) (trade : Trade) :
    (update_trading_history now s trade).consecutive_losses = s.consecutive_losses := rfl

lemma monitor_fst_pnl0 (config : CircuitBreakerConfig) (now : ℚ) (s : CBState) (trade : Trade)
    (h : s.daily_pnl = 0) :
    ((monitor_trade_execution config now s trade).1).daily_pnl = 0 := by
  unfold monitor_trade_execution
  simp [update_history_pnl, check_profit_fst_pnl, check_gas_fst_pnl, check_consecutive_fst_pnl,
    check_daily_fst_pnl0 config now s trade h]

lemma run_trades_pnl0 (config : CircuitBreakerConfig) (s : CBState) (evs : List (Trade × ℚ))
    (h : s.daily_pnl = 0) :
    (run_trades config s evs).daily_pnl = 0 := by
  induction evs generalizing s with
  | nil => simpa [run_trades]
  | cons ev evs ih =>
    rw [run_trades, List.foldl_cons]
    exact ih _ (monitor_fst_pnl0 config ev.2 s ev.1 h)

lemma check_daily_snd_breaker (config : CircuitBreakerConfig) (now : ℚ) (s : CBState)
    (trade : Trade) :
    ((check_daily_loss_breaker config now s trade).2).breaker = .daily_loss := by
  unfold check_daily_loss_breaker
  dsimp only
  split <;> rfl

lemma check_consecutive_snd_breaker (config : CircuitBreakerConfig) (now : ℚ) (s : CBState)
    (trade : Trade) :
    ((check_consecutive_loss_breaker config now s trade).2).breaker = .consecutive_losses := by
  unfold check_consecutive_loss_breaker
  dsimp only
  split_ifs <;> rfl

lemma check_gas_snd_breaker (config : CircuitBreakerConfig) (now : ℚ) (s : CBState)
    (trade : Trade) :
    ((check_gas_price_breaker config now s trade).2).breaker = .gas_price := by
  unfold check_gas_price_breaker
  split <;> rfl

lemma check_profit_snd_breaker (config : CircuitBreakerConfig) (now : ℚ) (s : CBState)
    (trade : Trade) :
    ((check_profitability_breaker config now s trade).2).breaker = .profitability := by
  unfold check_profitability_breaker
  dsimp only
  split_ifs <;> rfl

lemma check_daily_snd_triggered (config : CircuitBreakerConfig) (now : ℚ) (s : CBState)
    (trade : Trade) :
    ((check_daily_loss_breaker config now s trade).2).triggered = true ↔
      (reset_daily_if_needed now s).daily_pnl + trade.expected_profit <
        -|config.max_daily_loss| := by
  unfold check_daily_loss_breaker
  dsimp only
  split_ifs with h <;> simp [h]

lemma check_consecutive_snd_triggered (config : CircuitBreakerConfig) (now : ℚ) (s : CBState)
    (trade : Trade) :
    ((check_consecutive_loss_breaker config now s trade).2).triggered = true ↔
      (if trade.expected_profit < 0 then s.consecutive_losses.count + 1 else 0) ≥
        config.max_consecutive_losses := by
  unfold check_consecutive_loss_breaker
  dsimp only
  split_ifs with h1 h2 <;> simp_all

lemma check_gas_snd_triggered (config : CircuitBreakerConfig) (now : ℚ) (s : CBState)
    (trade : Trade) :
    ((check_gas_price_breaker config now s trade).2).triggered = true ↔
      trade.gas_price > config.max_gas_price := by
  unfold check_gas_price_breaker
  split_ifs with h <;> simp [h]

lemma check_profit_snd_triggered (config : CircuitBreakerConfig) (now : ℚ) (s : CBState)
    (trade : Trade) :
    ((check_profitability_breaker config now s trade).2).triggered = true ↔
      trade.expected_profit_percentage < config.min_profit_threshold ∧
        trade.expected_profit_percentage < config.min_profit_threshold * (1/2) := by
  unfold check_profitability_breaker
  dsimp only
  split_ifs with h1 h2 <;> simp_all

lemma check_profit_warnings (config : CircuitBreakerConfig) (now : ℚ) (s : CBState)
    (trade : Trade)
    (h : trade.expected_profit_percentage < config.min_profit_threshold) :
    check_warnings ((check_profitability_breaker config now s trade).2) =
      [.lowProfitability trade.expected_profit_percentage] := by
  unfold check_profitability_breaker
  dsimp only
  split_ifs with h1 h2 <;> simp_all [check_warnings]

lemma check_consecutive_fst_count_win (config : CircuitBreakerConfig) (now : ℚ) (s : CBState)
    (trade : Trade) (h : ¬ trade.expected_profit < 0)
    (hmax : 0 < config.max_consecutive_losses) :
    ((check_consecutive_loss_breaker config now s trade).1).consecutive_losses.count = 0 := by
  unfold check_consecutive_loss_breaker
  dsimp only
  rw [if_neg h, if_neg (by omega : ¬ (0 ≥ config.max_consecutive_losses))]
  rfl

lemma mem_triggered_breakers (name : BreakerName) (rs : List CheckResult) :
    name ∈ (rs.filter (fun r => r.triggered)).map (fun r => r.breaker) ↔
      ∃ r ∈ rs, r.triggered = true ∧ r.breaker = name := by
  simp only [List.mem_map, List.mem_filter]
  constructor
  · rintro ⟨r, ⟨hr, ht⟩, hb⟩
    exact ⟨r, hr, ht, hb⟩
  · rintro ⟨r, hr, ht, hb⟩
    exact ⟨r, ⟨hr, ht⟩, hb⟩

lemma updateBreaker_self (s : CBState) (n : BreakerName) (f : BreakerRec → BreakerRec)
    (h : f (s.breaker n) = s.breaker n) : s.updateBreaker n f = s := by
  cases n <;> simp_all [CBState.updateBreaker, CBState.breaker]

/-- C4: under every finite sequence of trade evaluations from the initial gate
state (no external mutation), `daily_pnl` stays `0.0` — no evaluation ever
adds a trade's expected or actual profit to the cumulative daily figure — so
the daily-loss breaker triggers on a trade exactly when that single trade's
`expected_profit` by itself is below the negated daily-loss limit. -/
theorem c4_daily_pnl_never_accumulates (config : CircuitBreakerConfig) (t0 : ℚ)
    (evs : List (Trade × ℚ)) (trade : Trade) (now : ℚ) :
    (run_trades config (initState t0) evs).daily_pnl = 0 ∧
    (BreakerName.daily_loss ∈
        (monitor_trade_execution config now (run_trades config (initState t0) evs)
          trade).2.breakers_triggered ↔
      trade.expected_profit < -|config.max_daily_loss|) := by
  have hpnl : (run_trades config (initState t0) evs).daily_pnl = 0 :=
    run_trades_pnl0 _ _ _ rfl
  refine ⟨hpnl, ?_⟩
  unfold monitor_trade_execution
  dsimp only
  rw [foldl_aggregate_check]
  dsimp only
  rw [List.nil_append, mem_triggered_breakers]
  constructor
  · rintro ⟨r, hr, ht, hb⟩
    simp only [List.mem_cons, List.not_mem_nil, or_false] at hr
    rcases hr with rfl | rfl | rfl | rfl
    · rw [check_daily_snd_triggered] at ht
      rwa [reset_daily_pnl0 _ _ hpnl, zero_add] at ht
    · rw [check_consecutive_snd_breaker] at hb; exact absurd hb (by decide)
    · rw [check_gas_snd_breaker] at hb; exact absurd hb (by decide)
    · rw [check_profit_snd_breaker] at hb; exact absurd hb (by decide)
  · intro h
    refine ⟨_, List.mem_cons_self _ _, ?_, check_daily_snd_breaker _ _ _ _⟩
    rw [check_daily_snd_triggered, reset_daily_pnl0 _ _ hpnl, zero_add]
    exact h

/-- C5: a trade whose gas cost exceeds the configured ceiling AND whose
expected-profit percentage is below the configured floor is denied
(`allowed_to_proceed = false`), the gas breaker appears among the triggered
breakers, and the profitability violation is reported in the warnings (as a
denial message or as a warning, depending on how far below the floor it is);
denial by one breaker does not stop the remaining checks from running and
being reported. -/
theorem c5_cost_and_profit_violations_both_reported (config : CircuitBreakerConfig)
    (now : ℚ) (s : CBState) (trade : Trade)
    (hgas : trade.gas_price > config.max_gas_price)
    (hepp : trade.expected_profit_percentage < config.min_profit_threshold) :
    (monitor_trade_execution config now s trade).2.allowed_to_proceed = false ∧
    BreakerName.gas_price ∈ (monitor_trade_execution config now s trade).2.breakers_triggered ∧
    BreakerMessage.lowProfitability trade.expected_profit_percentage ∈
      (monitor_trade_execution config now s trade).2.warnings := by
  unfold monitor_trade_execution
  dsimp only
  rw [foldl_aggregate_check]
  dsimp only
  refine ⟨?_, ?_, ?_⟩
  · have h3 := (check_gas_snd_triggered config now
      (check_consecutive_loss_breaker config now
        (check_daily_loss_breaker config now s trade).1 trade).1 trade).mpr hgas
    simp [List.all_cons, h3]
  · rw [List.nil_append, mem_triggered_breakers]
    exact ⟨_,
      List.mem_cons_of_mem _ (List.mem_cons_of_mem _ (List.mem_cons_self _ _)),
      (check_gas_snd_triggered _ _ _ _).mpr hgas, check_gas_snd_breaker _ _ _ _⟩
  · rw [List.nil_append]
    apply List.mem_flatten.mpr
    refine ⟨check_warnings ((check_profitability_breaker config now
      (check_gas_price_breaker config now
        (check_consecutive_loss_breaker config now
          (check_daily_loss_breaker config now s trade).1 trade).1 trade).1 trade).2),
      List.mem_map_of_mem _
        (List.mem_cons_of_mem _ (List.mem_cons_of_mem _
          (List.mem_cons_of_mem _ (List.mem_cons_self _ _)))), ?_⟩
    rw [check_profit_warnings _ _ _ _ hepp]
    simp

/-- Witness for C5 at a concrete input: gas price 300 Gwei against the default
200 Gwei ceiling, expected-profit percentage 0 against the default 0.1%
floor. -/
theorem c5_witness :
    (monitor_trade_execution defaultConfig 500 (initState 0)
        { gas_price := 300000000000 }).2.allowed_to_proceed = false ∧
    BreakerName.gas_price ∈ (monitor_trade_execution defaultConfig 500 (initState 0)
        { gas_price := 300000000000 }).2.breakers_triggered ∧
    BreakerMessage.lowProfitability 0 ∈ (monitor_trade_execution defaultConfig 500 (initState 0)
        { gas_price := 300000000000 }).2.warnings :=
  c5_cost_and_profit_violations_both_reported defaultConfig 500 (initState 0)
    { gas_price := 300000000000 } (by norm_num [defaultConfig]) (by norm_num [defaultConfig])

/-- C9: evaluating a winning (positive expected-profit) trade from ANY gate
state (in particular, regardless of cooldown or previous counter value) sets
the consecutive-loss counter to 0 and does not report the consecutive-losses
breaker as triggered; since the state is arbitrary, repeating the same winning
trade any number of times keeps the counter at 0 and never triggers that
breaker.  (The configured `max_consecutive_losses` threshold is assumed
positive, as in the default configuration.) -/
theorem c9_winning_trade_resets_consecutive_losses (config : CircuitBreakerConfig)
    (now : ℚ) (s : CBState) (trade : Trade)
    (hmax : 0 < config.max_consecutive_losses) (hwin : 0 < trade.expected_profit) :
    ((monitor_trade_execution config now s trade).1).consecutive_losses.count = 0 ∧
    BreakerName.consecutive_losses ∉
      (monitor_trade_execution config now s trade).2.breakers_triggered := by
  have hneg : ¬ trade.expected_profit < 0 := by linarith
  unfold monitor_trade_execution
  dsimp only
  constructor
  · rw [update_history_consecutive, check_profit_fst_consecutive, check_gas_fst_consecutive]
    exact check_consecutive_fst_count_win _ _ _ _ hneg hmax
  · rw [foldl_aggregate_check]
    dsimp only
    rw [List.nil_append, mem_triggered_breakers]
    rintro ⟨r, hr, ht, hb⟩
    simp only [List.mem_cons, List.not_mem_nil, or_false] at hr
    rcases hr with rfl | rfl | rfl | rfl
    · rw [check_daily_snd_breaker] at hb; exact absurd hb (by decide)
    · rw [check_consecutive_snd_triggered, if_neg hneg] at ht
      omega
    · rw [check_gas_snd_breaker] at hb; exact absurd hb (by decide)
    · rw [check_profit_snd_breaker] at hb; exact absurd hb (by decide)

/-- Witness for C9: a winning trade (expected profit 1) evaluated on the fresh
default gate. -/
theorem c9_witness :
    ((monitor_trade_execution defaultConfig 500 (initState 0)
        { expected_profit := 1 }).1).consecutive_losses.count = 0 ∧
    BreakerName.consecutive_losses ∉
      (monitor_trade_execution defaultConfig 500 (initState 0)
        { expected_profit := 1 }).2.breakers_triggered :=
  c9_winning_trade_resets_consecutive_losses defaultConfig 500 (initState 0)
    { expected_profit := 1 } (by norm_num [defaultConfig]) (by norm_num)

/-- C10 corrected: manual reset of a non-triggered breaker is a state no-op
only for the three breakers whose record carries a `last_trigger` timestamp
(`daily_loss`, `gas_price`, `profitability`): the call returns without error
and with the state unchanged.  For the `consecutive_losses` breaker the claim
fails: in the initial state its record has no `last_trigger` key, so the reset
raises `KeyError` (see the counterexample). -/
theorem c10_reset_nontriggered_noop (config : CircuitBreakerConfig) (now : ℚ)
    (name : BreakerName) (s : CBState) (lt : ℚ)
    (hname : name ≠ .consecutive_losses)
    (hlt : (s.breaker name).last_trigger = some lt)
    (htrig : (s.breaker name).triggered = false) :
    ∃ b, reset_breaker config now name s = .ok (b, s) := by
  unfold reset_breaker
  rw [hlt]
  dsimp only
  by_cases hcool : now - lt ≥ config.cooldown_period
  · refine ⟨true, ?_⟩
    rw [if_pos hcool, if_neg hname]
    have hb : (fun b => ({ b with triggered := false } : BreakerRec)) (s.breaker name) =
        s.breaker name := by rw [← htrig]
    rw [updateBreaker_self s name _ hb]
  · exact ⟨false, by rw [if_neg hcool]⟩

/-- Witness for C10's amended statement: resetting the never-triggered
`daily_loss` breaker of a fresh gate returns without error and leaves the
state unchanged. -/
theorem c10_witness :
    ∃ b, reset_breaker defaultConfig 1000 .daily_loss (initState 0) =
      .ok (b, initState 0) :=
  c10_reset_nontriggered_noop defaultConfig 1000 .daily_loss (initState 0) 0
    (by decide) rfl rfl

/-- Counterexample for C10 as stated: on the initial state the
`consecutive_losses` breaker is not triggered, yet `reset_breaker` raises
`KeyError` (its record has no `last_trigger` key) instead of being an
error-free no-op. -/
theorem c10_counterexample :
    reset_breaker defaultConfig 1000 .consecutive_losses (initState 0) =
      .error .keyError ∧
    (initState 0).consecutive_losses.triggered = false :=
  ⟨rfl, rfl⟩

/-- C1 corrected: `_calculate_risk_metrics` applies NO clamping.  For every
non-empty trial set the reduction succeeds and its survival probability (a
counting fraction) lies in [0,1], but the other four fields are the raw
formulas and can leave [0,1] (see the counterexample). -/
theorem c1_survival_probability_in_unit_interval (v : ℚ) (vs : List ℚ) :
    ∃ rm, riskMetricsOfValues (v :: vs) = Except.ok rm ∧
      0 ≤ rm.survival_probability ∧ rm.survival_probability ≤ 1 := by
  refine ⟨_, rfl, ?_, ?_⟩
  · dsimp only [riskMetricsOfValues]
    positivity
  · dsimp only [riskMetricsOfValues]
    have hlen : (0:ℚ) < ((v :: vs).length : ℚ) := by
      exact_mod_cast Nat.succ_pos vs.length
    rw [div_le_one hlen]
    exact_mod_cast List.countP_le_length _

/-- Counterexample for C1 as stated: on the one-trial set `[2]` (a trial that
doubled the portfolio) all of portfolio impact, max drawdown, VaR95 and
expected shortfall equal `-1`, outside `[0,1]` — no clamping is applied. -/
theorem c1_counterexample :
    riskMetricsOfValues [2] = .ok ⟨-1, -1, -1, -1, 1⟩ ∧ ((-1 : ℚ) < 0) := by
  constructor
  · simp [riskMetricsOfValues, percentile5, sortValues, insertSorted, npMean, npMin,
      List.countP_cons, List.countP_nil]
    norm_num
  · norm_num

/-- C7 corrected: the reduction never raises for any (well-formed) non-empty
trial set; for the empty trial set it raises `ValueError` (from `np.min` on a
zero-size array), NOT the spec's `InsufficientDataError` — no class of that
name exists in the repository, and no labeled "inconclusive" result is
produced. -/
theorem c7_nonempty_total_empty_valueerror :
    (∀ (v : ℚ) (vs : List ℚ), ∃ rm, riskMetricsOfValues (v :: vs) = Except.ok rm) ∧
    riskMetricsOfValues [] = .error .valueError ∧
    PyErr.valueError ≠ PyErr.insufficientDataError :=
  ⟨fun _ _ => ⟨_, rfl⟩, rfl, by decide⟩

/-- Counterexample for C7 as stated: the empty trial set produces a plain
`ValueError`, which is not the `InsufficientDataError` the claim requires. -/
theorem c7_counterexample :
    riskMetricsOfValues [] = .error .valueError ∧
    (riskMetricsOfValues [] ≠ .error .insufficientDataError) := by
  refine ⟨rfl, ?_⟩
  intro h
  exact absurd (Except.error.inj h) (by decide)

/-- A QP solver stub that always fails, standing for an
`ef.max_sharpe()` call that raises or fails to converge. -/
def fail_solver : List ℚ → List (List ℚ) → Except PyErr QPSolution :=
  fun _ _ => .error (.other "Solver failed to converge")

/-- A concrete candidate strategy used in the calibration theorems. -/
def strategy_a : Strategy :=
  { id := "a", expected_annual_return := 12/100, volatility := 2/10,
    allocated_capital := 1000 }

/-- C3 corrected: `calibrate_risk_profit_profile` has NO try/except around the
efficient-frontier solve and produces no `optimization_success` field; for
every non-empty strategy list, a solver failure propagates to the caller
unchanged — there is no fallback to a Kelly-only result. -/
theorem c3_qp_failure_propagates
    (solve : List ℚ → List (List ℚ) → Except PyErr QPSolution)
    (z_score : ℚ) (now : ℤ) (strategies : List Strategy) (e : PyErr)
    (hne : strategies.length ≠ 0)
    (hsolve : solve (strategies.map (fun s => s.expected_annual_return))
        (build_covariance_matrix strategies) = .error e) :
    calibrate_risk_profit_profile solve z_score now strategies = .error e ∧
    "optimization_success" ∉ calibration_result_keys := by
  constructor
  · unfold calibrate_risk_profit_profile
    rw [if_neg hne]
    show (solve (strategies.map (fun s => s.expected_annual_return))
        (build_covariance_matrix strategies)).bind _ = Except.error e
    rw [hsolve]
    rfl
  · simp [calibration_result_keys]

/-- Witness for C3: the failing solver on a one-strategy list makes the whole
calibration call fail with the solver's exception. -/
theorem c3_witness :
    calibrate_risk_profit_profile fail_solver 0 0 [strategy_a] =
      .error (.other "Solver failed to converge") ∧
    "optimization_success" ∉ calibration_result_keys :=
  c3_qp_failure_propagates fail_solver 0 0 [strategy_a] (.other "Solver failed to converge")
    (by decide) rfl

/-- Counterexample for C3 as stated: with one strategy and a failing QP solve
the call does fail outright — it returns the propagated solver error, not a
Kelly-only result with `optimization_success=false` (no such key even exists
in the result dict, see `calibration_result_keys`). -/
theorem c3_counterexample :
    calibrate_risk_profit_profile fail_solver 0 0 [strategy_a] =
      .error (.other "Solver failed to converge") := by
  unfold calibrate_risk_profit_profile
  rw [if_neg (by decide : ¬ ([strategy_a].length = 0))]
  rfl

/-- C6: per strategy, Kelly sizing computes `b = avg_win / avg_loss`,
`f = (b·p − q)/b`, clamps the negative fraction at 0 and returns a
conservative fraction equal to half the (clamped) Kelly fraction. -/
theorem c6_kelly_fraction_formula (strategy : Strategy) (total_capital wr aw al : ℚ)
    (hwr : strategy.win_rate = some wr)
    (haw : strategy.avg_win_percent = some aw)
    (hal : strategy.avg_loss_percent = some al)
    (haw0 : 0 < aw) (hal0 : 0 < al) :
    ∃ entry, kelly_entry total_capital strategy = .ok (strategy.id, entry) ∧
      entry.kelly_fraction = max 0 ((aw / al * wr - (1 - wr)) / (aw / al)) ∧
      entry.conservative_fraction = entry.kelly_fraction * (1/2) := by
  unfold kelly_entry
  rw [hwr, haw, hal]
  dsimp only [Option.getD_some]
  rw [if_neg (ne_of_gt hal0)]
  have hb : 0 < aw / al := div_pos haw0 hal0
  rw [if_pos hb]
  refine ⟨_, rfl, rfl, ?_⟩
  dsimp only
  rw [max_mul_of_nonneg _ _ (by norm_num : (0:ℚ) ≤ 1/2), zero_mul]

/-- The spec's concrete Kelly scenario: win rate 0.6, average win 0.15,
average loss 0.05. -/
def strategy_kelly : Strategy :=
  { id := "alpha", allocated_capital := 1000, win_rate := some (6/10),
    avg_win_percent := some (15/100), avg_loss_percent := some (5/100) }

/-- Witness for C6 at the spec's concrete scenario: win rate 0.6, average win
0.15, average loss 0.05 give `b = 3`, Kelly fraction `7/15 ≈ 0.467` and
conservative fraction `7/30 ≈ 0.233`. -/
theorem c6_witness :
    ∃ entry, kelly_entry 1000 strategy_kelly = .ok ("alpha", entry) ∧
      entry.kelly_fraction = 7/15 ∧ entry.conservative_fraction = 7/30 := by
  obtain ⟨entry, he, hk, hc⟩ :=
    c6_kelly_fraction_formula strategy_kelly 1000 (6/10) (15/100) (5/100)
      rfl rfl rfl (by norm_num) (by norm_num)
  have hk15 : entry.kelly_fraction = 7/15 := by
    rw [hk]; norm_num
  exact ⟨entry, he, hk15, by rw [hc, hk15]; norm_num⟩

lemma run_single_scenario_error
    (sim : StressScenario → Portfolio → Except PyErr ImpactAnalysis)
    (scenario : StressScenario) (portfolio : Portfolio) (now : ℚ) (e : PyErr)
    (hfail : sim scenario portfolio = .error e) :
    run_single_scenario sim scenario portfolio now =
      { scenario := scenario, portfolio_impact := 0, max_drawdown := 0, var_95 := 0,
        expected_shortfall := 0, survival_probability := 0,
        recommendations := ["Stress test failed: " ++ e.message],
        executed_at := now } := by
  unfold run_single_scenario
  rw [hfail]
  rfl

/-- C2 corrected: a scenario whose simulation raises does not abort the
comprehensive run — the run is a total function, the failing scenario is
recorded as an all-zero failure entry (hence contributing zero weighted
impact to the risk score), and every other scenario's entry is exactly its
standalone single-scenario result.  But the report does NOT mark itself
`partial=true`: its dict has a fixed key set with no `partial` key at all. -/
theorem c2_failed_scenario_degrades_without_partial_flag
    (sim : StressScenario → Portfolio → Except PyErr ImpactAnalysis)
    (portfolio : Portfolio) (t0 t1 : ℚ) (scenarios : List StressScenario)
    (sc : StressScenario) (e : PyErr)
    (hmem : sc ∈ scenarios) (hfail : sim sc portfolio = .error e) :
    (run_comprehensive_stress_tests sim scenarios portfolio t0 t1).scenario_results =
      scenarios.map (fun x => (x.name, run_single_scenario sim x portfolio t1)) ∧
    (sc.name,
      { scenario := sc, portfolio_impact := 0, max_drawdown := 0, var_95 := 0,
        expected_shortfall := 0, survival_probability := 0,
        recommendations := ["Stress test failed: " ++ e.message],
        executed_at := t1 }) ∈
      (run_comprehensive_stress_tests sim scenarios portfolio t0 t1).scenario_results ∧
    "partial" ∉ stress_report_keys := by
  refine ⟨rfl, ?_, by simp [stress_report_keys]⟩
  show _ ∈ scenarios.map (fun x => (x.name, run_single_scenario sim x portfolio t1))
  rw [← run_single_scenario_error sim sc portfolio t1 e hfail]
  exact List.mem_map_of_mem _ hmem

/-- The first three catalog scenarios, used as the concrete C2 scenario set. -/
def c2_flash : StressScenario :=
  { name := "2020-style Flash Crash", scenario_type := .flash_crash,
    probability := 5/100, severity := "extreme" }

def c2_gas : StressScenario :=
  { name := "Ethereum Gas Crisis", scenario_type := .gas_spike,
    probability := 15/100, severity := "high" }

def c2_outage : StressScenario :=
  { name := "Major Exchange Outage", scenario_type := .exchange_outage,
    probability := 8/100, severity := "medium" }

def c2_scenarios : List StressScenario := [c2_flash, c2_gas, c2_outage]

/-- A simulator that raises on the gas-spike scenario and returns the trivial
trial set `[1]` elsewhere. -/
def sim_fail_gas : StressScenario → Portfolio → Except PyErr ImpactAnalysis :=
  fun scenario _ =>
    if scenario.scenario_type = .gas_spike then .error (.other "boom")
    else .ok (.portfolio_values [1])

/-- Witness for C2's amended statement: over the three concrete scenarios with
the gas-spike simulation raising, the report records the gas scenario as the
all-zero failure entry, keeps the other entries as their standalone results,
and has no `partial` key. -/
theorem c2_witness :
    (run_comprehensive_stress_tests sim_fail_gas c2_scenarios { total_value := 1000000 }
        0 50).scenario_results =
      c2_scenarios.map (fun x =>
        (x.name, run_single_scenario sim_fail_gas x { total_value := 1000000 } 50)) ∧
    (c2_gas.name,
      { scenario := c2_gas, portfolio_impact := 0, max_drawdown := 0, var_95 := 0,
        expected_shortfall := 0, survival_probability := 0,
        recommendations := ["Stress test failed: " ++ (PyErr.other "boom").message],
        executed_at := 50 }) ∈
      (run_comprehensive_stress_tests sim_fail_gas c2_scenarios { total_value := 1000000 }
        0 50).scenario_results ∧
    "partial" ∉ stress_report_keys :=
  c2_failed_scenario_degrades_without_partial_flag sim_fail_gas { total_value := 1000000 }
    0 50 c2_scenarios c2_gas (.other "boom")
    (List.mem_cons_of_mem _ (List.mem_cons_self _ _)) rfl

/-- Counterexample for C2 as stated: in the concrete three-scenario run with
one raising simulation, the call returns a report with all three scenario
entries (the exception did not propagate), yet the report's key set contains
no `partial` key — the claim's `partial=true` component is unsatisfiable. -/
theorem c2_counterexample :
    (run_comprehensive_stress_tests sim_fail_gas c2_scenarios { total_value := 1000000 }
        0 50).scenario_results.length = 3 ∧
    "partial" ∉ stress_report_keys := by
  constructor
  · rfl
  · simp [stress_report_keys]

/-- Spec-side definition of the overall risk score, following the spec's
words for the refinement comparison: "probability-and-severity-weighted sum of
per-scenario impacts, normalized to [0,100] by dividing by the maximum
attainable weighted score". -/
def spec_overall_risk_score (scenario_results : List (String × StressTestResult)) : ℚ :=
  let weighted_impacts := (scenario_results.map (fun r =>
    r.2.scenario.probability * severity_weight r.2.scenario.severity *
      r.2.portfolio_impact)).sum
  let max_weighted := (scenario_results.map (fun r =>
    r.2.scenario.probability * severity_weight r.2.scenario.severity)).sum
  if max_weighted > 0 then weighted_impacts / max_weighted * 100 else 0

lemma risk_score_foldl (rs : List (String × StressTestResult)) (a b : ℚ) :
    rs.foldl risk_score_step (a, b) =
      (a + 10000 * (rs.map (fun r =>
          r.2.scenario.probability * severity_weight r.2.scenario.severity *
            r.2.portfolio_impact)).sum,
       b + 10000 * (rs.map (fun r =>
          r.2.scenario.probability * severity_weight r.2.scenario.severity)).sum) := by
  induction rs generalizing a b with
  | nil => simp
  | cons r rs ih =>
    rw [List.foldl_cons, ih]
    simp only [List.map_cons, List.sum_cons, risk_score_step]
    refine Prod.ext ?_ ?_ <;> dsimp only <;> ring

lemma severity_weight_pos (severity : String) : 0 < severity_weight severity := by
  unfold severity_weight
  split_ifs <;> norm_num

lemma overall_risk_score_eq_spec (rs : List (String × StressTestResult)) :
    calculate_overall_risk_score rs = spec_overall_risk_score rs := by
  unfold calculate_overall_risk_score spec_overall_risk_score
  rcases rs with _ | ⟨r, rs⟩
  · simp
  · rw [if_neg (by simp)]
    dsimp only
    rw [risk_score_foldl]
    dsimp only
    rw [zero_add, zero_add]
    have h4 : (0:ℚ) < 10000 := by norm_num
    by_cases hW : 0 < ((r :: rs).map (fun r =>
        r.2.scenario.probability * severity_weight r.2.scenario.severity)).sum
    · rw [if_pos (by positivity), if_pos hW, mul_div_mul_left _ _ (by norm_num : (10000:ℚ) ≠ 0)]
    · rw [if_neg ?_, if_neg hW]
      intro hpos
      exact hW (by nlinarith)

/-- C8 corrected: the overall risk score equals the spec's formula (the
probability-and-severity-weighted sum of per-scenario impacts divided by the
maximum attainable weighted score, rescaled to 0-100), and it lies in [0,100]
PROVIDED every per-scenario impact lies in [0,1] (probabilities nonnegative).
Because the per-scenario impacts are themselves unclamped (C1), the score can
leave [0,100] in general — see the counterexample, where an impact of 2 yields
a score of 200. -/
theorem c8_overall_risk_score_formula_and_bounds :
    (∀ rs : List (String × StressTestResult),
      calculate_overall_risk_score rs = spec_overall_risk_score rs) ∧
    (∀ rs : List (String × StressTestResult),
      (∀ r ∈ rs, 0 ≤ r.2.scenario.probability ∧
        0 ≤ r.2.portfolio_impact ∧ r.2.portfolio_impact ≤ 1) →
      0 ≤ calculate_overall_risk_score rs ∧ calculate_overall_risk_score rs ≤ 100) := by
  refine ⟨overall_risk_score_eq_spec, ?_⟩
  intro rs h
  rw [overall_risk_score_eq_spec]
  unfold spec_overall_risk_score
  dsimp only
  have hS0 : 0 ≤ (rs.map (fun r =>
      r.2.scenario.probability * severity_weight r.2.scenario.severity *
        r.2.portfolio_impact)).sum := by
    apply List.sum_nonneg
    intro x hx
    obtain ⟨r, hr, rfl⟩ := List.mem_map.mp hx
    obtain ⟨hp, hi0, _⟩ := h r hr
    have := le_of_lt (severity_weight_pos r.2.scenario.severity)
    positivity
  have hSW : (rs.map (fun r =>
      r.2.scenario.probability * severity_weight r.2.scenario.severity *
        r.2.portfolio_impact)).sum ≤
      (rs.map (fun r =>
        r.2.scenario.probability * severity_weight r.2.scenario.severity)).sum := by
    apply List.sum_le_sum
    intro r hr
    obtain ⟨hp, hi0, hi1⟩ := h r hr
    have hs := le_of_lt (severity_weight_pos r.2.scenario.severity)
    have hps : 0 ≤ r.2.scenario.probability * severity_weight r.2.scenario.severity :=
      mul_nonneg hp hs
    exact mul_le_of_le_one_right hps hi1
  split_ifs with hW
  · constructor
    · positivity
    · have hle : (rs.map (fun r =>
          r.2.scenario.probability * severity_weight r.2.scenario.severity *
            r.2.portfolio_impact)).sum /
          (rs.map (fun r =>
            r.2.scenario.probability * severity_weight r.2.scenario.severity)).sum ≤ 1 :=
        (div_le_one hW).mpr hSW
      nlinarith
  · norm_num

/-- A simulator whose gas-spike impact analysis carries a profitability impact
of 2 (a loss of twice the normalized base value), which is a reachable
simulator output shape. -/
def c8_sim : StressScenario → Portfolio → Except PyErr ImpactAnalysis :=
  fun _ _ => .ok (.profitability_impacts [2])

/-- Counterexample for C8 as stated: a per-scenario result produced by the
pipeline itself (gas-spike analysis with profitability impact 2, so the
unclamped portfolio impact is 2) yields an overall risk score of 200,
outside [0,100]. -/
theorem c8_counterexample :
    calculate_overall_risk_score [("Ethereum Gas Crisis",
      run_single_scenario c8_sim c2_gas { total_value := 0 } 0)] = 200 ∧
    ¬ ((200:ℚ) ≤ 100) := by
  have hmetrics : calculate_risk_metrics (.profitability_impacts [2]) =
      .ok ⟨2, 2, 2, 2, 0⟩ := by
    simp [calculate_risk_metrics, extract_values, riskMetricsOfValues, percentile5,
      sortValues, insertSorted, npMean, npMin, List.countP_cons, List.countP_nil]
    norm_num
  have hrun : run_single_scenario c8_sim c2_gas { total_value := 0 } 0 =
      { scenario := c2_gas, portfolio_impact := 2, max_drawdown := 2, var_95 := 2,
        expected_shortfall := 2, survival_probability := 0,
        recommendations := generate_scenario_recommendations c2_gas ⟨2, 2, 2, 2, 0⟩,
        executed_at := 0 } := by
    unfold run_single_scenario
    rw [show ((c8_sim c2_gas { total_value := 0 }).bind calculate_risk_metrics) =
      calculate_risk_metrics (.profitability_impacts [2]) from rfl, hmetrics]
  refine ⟨?_, by norm_num⟩
  rw [hrun]
  unfold calculate_overall_risk_score
  rw [if_neg (by simp)]
  dsimp only
  rw [risk_score_foldl]
  simp [c2_gas, severity_weight]
  norm_num

/-- A per-scenario result whose impact is inside [0,1], for the C8 witness. -/
def c8_half_result : StressTestResult :=
  { scenario := c2_flash,
    portfolio_impact := 1/2, max_drawdown := 1/2, var_95 := 1/2,
    expected_shortfall := 1/2, survival_probability := 1,
    recommendations := [], executed_at := 0 }

/-- Witness for C8's amended bound: with a per-scenario impact inside [0,1]
the score lies in [0,100]. -/
theorem c8_witness :
    0 ≤ calculate_overall_risk_score [("2020-style Flash Crash", c8_half_result)] ∧
    calculate_overall_risk_score [("2020-style Flash Crash", c8_half_result)] ≤ 100 :=
  c8_overall_risk_score_formula_and_bounds.2 _ (by
    intro r hr
    rw [List.mem_singleton] at hr
    subst hr
    refine ⟨by norm_num [c8_half_result, c2_flash], by norm_num [c8_half_result],
      by norm_num [c8_half_result]⟩)
